import Mathlib

/-!
Shallow embedding of the crypto-dashboard pipeline (src/app.py) and proofs
about it.  Network and provider effects are passed in explicitly: each
fetch function takes the outcome of its underlying HTTP/provider call
(either a decoded value or a raised exception) and the module-level script
is embedded as a function from those outcomes to a rendering result in an
exception monad, where an `Except.error` escaping `runDashboard` models an
uncaught Python exception crashing the script run.
-/

/-- Python exceptions that the embedded code can raise or catch. -/
inductive PyExn where
  | keyError (k : String)
  | indexError
  | apiError (msg : String)
deriving Repr, DecidableEq

/-- The string Python renders for an exception in an f-string, as in
f"Unable to generate AI analysis: \x7be\x7d". -/
def PyExn.toStr : PyExn → String
  | .keyError k => "'" ++ k ++ "'"
  | .indexError => "list index out of range"
  | .apiError msg => msg

/-- A decoded JSON object of numbers, as returned for one asset by the
price endpoint (keys usd, usd_24h_change). -/
def AssetDict : Type := List (String × ℚ)

/-- The decoded JSON object of the price endpoint: asset id to asset dict. -/
def PriceDict : Type := List (String × AssetDict)

/-- Python dict subscription d[k]: the value, or a raised KeyError. -/
def dictGet {α : Type} (d : List (String × α)) (k : String) : Except PyExn α :=
  match d.lookup k with
  | some v => Except.ok v
  | none => Except.error (PyExn.keyError k)

/-- The source dict of one news item (cryptopanic post object); every field
can be absent, modelling a dict that lacks the key. -/
structure NewsSource where
  title : Option String
deriving Repr, DecidableEq

structure NewsItem where
  title : Option String
  source : Option NewsSource
  published_at : Option String
deriving Repr, DecidableEq

/-- Python attribute/key access on an optional field: KeyError when absent. -/
def optGet {α : Type} (o : Option α) (k : String) : Except PyExn α :=
  match o with
  | some v => Except.ok v
  | none => Except.error (PyExn.keyError k)

/-- The decoded JSON object of the news endpoint; results is absent when
the response object has no results key (data.get defaults it to []). -/
structure NewsResp where
  results : Option (List NewsItem)
deriving Repr, DecidableEq

/-! ## Python numeric formatting (f-string format specs) -/

/-- Round-half-to-even, the rounding of Python float formatting. -/
def roundHalfEven (q : ℚ) : ℤ :=
  if Int.fract q < 1/2 then ⌊q⌋
  else if 1/2 < Int.fract q then ⌊q⌋ + 1
  else if ⌊q⌋ % 2 = 0 then ⌊q⌋ else ⌊q⌋ + 1

/-- Insert a comma after every group of three digits, counting from the
right; input and output are reversed digit lists. -/
def commaGroupAux (l : List Char) : List Char :=
  match l with
  | a :: b :: c :: d :: rest => a :: b :: c :: ',' :: commaGroupAux (d :: rest)
  | l => l
termination_by l.length

def commaGroup (l : List Char) : List Char :=
  (commaGroupAux l.reverse).reverse

/-- Decimal digits of a natural number, most significant first. -/
def natDigits (n : ℕ) : List Char := Nat.toDigits 10 n

/-- Python format spec .2f on a rational value. -/
def pyFmt_2f (q : ℚ) : String :=
  let n : ℤ := roundHalfEven (q * 100)
  let sign : String := if q < 0 then "-" else ""
  let m : ℕ := n.natAbs
  sign ++ String.mk (natDigits (m / 100)) ++ "." ++
    String.mk [Nat.digitChar (m % 100 / 10), Nat.digitChar (m % 10)]

/-- Python format spec ,.2f on a rational value. -/
def pyFmt_c2f (q : ℚ) : String :=
  let n : ℤ := roundHalfEven (q * 100)
  let sign : String := if q < 0 then "-" else ""
  let m : ℕ := n.natAbs
  sign ++ String.mk (commaGroup (natDigits (m / 100))) ++ "." ++
    String.mk [Nat.digitChar (m % 100 / 10), Nat.digitChar (m % 10)]

/-- Python format spec ,.0f on a rational value. -/
def pyFmt_c0f (q : ℚ) : String :=
  let n : ℤ := roundHalfEven q
  let sign : String := if q < 0 then "-" else ""
  sign ++ String.mk (commaGroup (natDigits n.natAbs))

/-! ## src/app.py lines 33-48: get_crypto_prices -/

/-- get_crypto_prices (src/app.py lines 35-48).  The argument is the
outcome of requests.get(...).json(): a raised exception (network, auth
transport error, JSON parse error) or the decoded JSON object.  On an
exception the except branch displays st.error and returns None; otherwise
the decoded object is returned as is, whatever keys it has. -/
def get_crypto_prices (resp : Except PyExn PriceDict) : Option PriceDict :=
  match resp with
  | Except.ok j => some j
  | Except.error _ => none

/-! ## src/app.py lines 50-60: get_crypto_news -/

/-- get_crypto_news (src/app.py lines 52-60): on any exception returns [],
otherwise data.get(results, [])[:5]. -/
def get_crypto_news (resp : Except PyExn NewsResp) : List NewsItem :=
  match resp with
  | Except.ok d => (d.results.getD []).take 5
  | Except.error _ => []

/-! ## src/app.py lines 62-91: get_ai_analysis -/

/-- The headline lines of the prompt: the list comprehension of src/app.py
line 74 applied to an already-truncated list, one dash-prefixed title per
item; a missing title key raises KeyError. -/
def headlineLines : List NewsItem → Except PyExn (List String)
  | [] => Except.ok []
  | n :: rest =>
    match n.title with
    | some t => (headlineLines rest).map (fun ls => ("- " ++ t) :: ls)
    | none => Except.error (PyExn.keyError "title")

/-- The fixed closing instruction of the prompt f-string, src/app.py
lines 76-81. -/
def fixedInstruction : String :=
  "\n\nProvide a concise analysis in 3-4 sentences covering:\n1. Key market movements\n2. Notable trends\n3. What to watch for\n\nBe objective and data-driven."

/-- Literal pieces of the prompt f-string around the interpolations. -/
def promptLit1 : String :=
  "Analyze this cryptocurrency market data and provide a brief summary:\n\nPrice Data:\n- Bitcoin: $"

def promptLit2 : String := " (24h change: "

def promptLit3 : String := "%)\n- Ethereum: $"

def promptLit5 : String := "%)\n\nRecent News Headlines:\n"

/-- The literal prompt f-string of src/app.py lines 67-81 with the four
formatted figures and the joined headline lines substituted in. -/
def promptText (btcUsd btcChg ethUsd ethChg : String) (lines : List String) : String :=
  promptLit1 ++ btcUsd ++ promptLit2 ++ btcChg ++ promptLit3 ++ ethUsd
    ++ promptLit2 ++ ethChg ++ promptLit5 ++ String.intercalate "\n" lines
    ++ fixedInstruction

/-- Evaluation of the prompt f-string (src/app.py lines 67-81): the four
dict lookups and the headline comprehension, in source order, then the
literal text.  Raises KeyError on any missing key. -/
def build_prompt (price_data : PriceDict) (news_data : List NewsItem) :
    Except PyExn String :=
  match dictGet price_data "bitcoin" with
  | Except.error e => Except.error e
  | Except.ok btc =>
    match dictGet btc "usd" with
    | Except.error e => Except.error e
    | Except.ok btcUsd =>
      match dictGet btc "usd_24h_change" with
      | Except.error e => Except.error e
      | Except.ok btcChg =>
        match dictGet price_data "ethereum" with
        | Except.error e => Except.error e
        | Except.ok eth =>
          match dictGet eth "usd" with
          | Except.error e => Except.error e
          | Except.ok ethUsd =>
            match dictGet eth "usd_24h_change" with
            | Except.error e => Except.error e
            | Except.ok ethChg =>
              match headlineLines (news_data.take 3) with
              | Except.error e => Except.error e
              | Except.ok lines =>
                Except.ok (promptText (pyFmt_c2f btcUsd) (pyFmt_2f btcChg)
                  (pyFmt_c2f ethUsd) (pyFmt_2f ethChg) lines)

/-- Body of the try block of get_ai_analysis: build the prompt, invoke the
provider, take message.content[0].text.  The provider is a function from
the prompt to either a raised exception (auth, network, malformed
response) or the list of content block texts of the response; an empty
content list makes content[0] raise IndexError. -/
def aiBody (call : String → Except PyExn (List String))
    (price_data : PriceDict) (news_data : List NewsItem) : Except PyExn String :=
  match build_prompt price_data news_data with
  | Except.error e => Except.error e
  | Except.ok prompt =>
    match call prompt with
    | Except.error e => Except.error e
    | Except.ok content =>
      match content.head? with
      | some t => Except.ok t
      | none => Except.error PyExn.indexError

/-- get_ai_analysis (src/app.py lines 63-91): the whole body runs under
except Exception, whose handler returns the fallback f-string. -/
def get_ai_analysis (call : String → Except PyExn (List String))
    (price_data : PriceDict) (news_data : List NewsItem) : String :=
  match aiBody call price_data news_data with
  | Except.ok s => s
  | Except.error e => "Unable to generate AI analysis: " ++ e.toStr

/-! ## src/app.py lines 120-132: sentiment -/

inductive SentimentLabel where
  | Fear
  | Cautious
  | Optimistic
  | Greed
deriving Repr, DecidableEq

/-- The sentiment if/elif chain of src/app.py lines 122-130, as a function
of the two 24h changes. -/
def sentiment (btc_change eth_change : ℚ) : SentimentLabel :=
  let avg_change := (btc_change + eth_change) / 2
  if avg_change > 2 then SentimentLabel.Greed
  else if avg_change > 0 then SentimentLabel.Optimistic
  else if avg_change > -2 then SentimentLabel.Cautious
  else SentimentLabel.Fear

/-- The string the source stores in the sentiment variable. -/
def sentimentText : SentimentLabel → String
  | SentimentLabel.Greed => "Greed 😎"
  | SentimentLabel.Optimistic => "Optimistic 🙂"
  | SentimentLabel.Cautious => "Cautious 😐"
  | SentimentLabel.Fear => "Fear 😰"

/-- Position of a label in the order Fear < Cautious < Optimistic < Greed. -/
def SentimentLabel.rank : SentimentLabel → ℕ
  | SentimentLabel.Fear => 0
  | SentimentLabel.Cautious => 1
  | SentimentLabel.Optimistic => 2
  | SentimentLabel.Greed => 3

/-! ## src/app.py lines 94-156: the module-level pipeline and rendering -/

/-- One st.metric card: label, value, delta. -/
structure MetricCard where
  label : String
  value : String
  delta : String
deriving Repr, DecidableEq

/-- What one script run displays below the header. -/
inductive Rendered where
  | dashboard (btcCard ethCard sentimentCard : MetricCard) (analysis : String)
      (newsShown : List (String × String × String)) (noNewsInfo : Bool)
  | errorBanner (msg : String)
deriving Repr, DecidableEq

/-- The news rendering loop (src/app.py lines 147-151): per item the
title, source title and published_at lookups, each able to raise. -/
def renderNewsItems : List NewsItem → Except PyExn (List (String × String × String))
  | [] => Except.ok []
  | n :: rest => do
    let t ← optGet n.title "title"
    let src ← optGet n.source "source"
    let st ← optGet src.title "title"
    let pa ← optGet n.published_at "published_at"
    let tail ← renderNewsItems rest
    pure ((t, st, pa) :: tail)

/-- Python truthiness of the prices variable (None or a dict). -/
def pyTruthy (prices : Option PriceDict) : Bool :=
  match prices with
  | none => false
  | some p => !p.isEmpty

/-- The module-level script after the fetches (src/app.py lines 94-156):
fetch prices and news, then either render the cards, analysis and news
(any KeyError here escapes as Except.error, crashing the run) or show the
single error banner when prices is falsy. -/
def runDashboard (call : String → Except PyExn (List String))
    (priceResp : Except PyExn PriceDict) (newsResp : Except PyExn NewsResp) :
    Except PyExn Rendered :=
  let prices := get_crypto_prices priceResp
  let news := get_crypto_news newsResp
  match prices with
  | some p =>
    if p.isEmpty then
      Except.ok (Rendered.errorBanner "Unable to fetch cryptocurrency data. Please check your API keys.")
    else do
      let btc ← dictGet p "bitcoin"
      let btc_change ← dictGet btc "usd_24h_change"
      let btcUsd ← dictGet btc "usd"
      let btcCard : MetricCard :=
        ⟨"Bitcoin (BTC)", "$" ++ pyFmt_c0f btcUsd, pyFmt_2f btc_change ++ "%"⟩
      let eth ← dictGet p "ethereum"
      let eth_change ← dictGet eth "usd_24h_change"
      let ethUsd ← dictGet eth "usd"
      let ethCard : MetricCard :=
        ⟨"Ethereum (ETH)", "$" ++ pyFmt_c0f ethUsd, pyFmt_2f eth_change ++ "%"⟩
      let avg_change := (btc_change + eth_change) / 2
      let sCard : MetricCard :=
        ⟨"Market Sentiment", sentimentText (sentiment btc_change eth_change),
          pyFmt_2f avg_change ++ "%"⟩
      let analysis := get_ai_analysis call p news
      if news.isEmpty then
        pure (Rendered.dashboard btcCard ethCard sCard analysis [] true)
      else do
        let items ← renderNewsItems news
        pure (Rendered.dashboard btcCard ethCard sCard analysis items false)
  | none =>
    Except.ok (Rendered.errorBanner "Unable to fetch cryptocurrency data. Please check your API keys.")

/-! ## Modelled from the spec: the ttl caches -/

/-- Modelled from the spec: the st.cache_data decorator of src/app.py
lines 34 and 51, whose implementation is framework code not in this
repository.  Spec 4.1, 4.2, 5 and 9 describe it as a one-entry
read-through cache holding (value, fetched_at). -/
structure CacheState (α : Type) where
  entry : Option (α × ℕ)
deriving Repr

/-- Modelled from the spec: one cached call at time now.  The entry is
reused while its age is within ttl seconds; otherwise the underlying
fetch runs again and its value is stored fresh.  The Bool of the result
says whether a network call was made. -/
def cachedFetch {α : Type} (ttl now : ℕ) (fetch : Unit → α) (s : CacheState α) :
    α × CacheState α × Bool :=
  match s.entry with
  | some (v, t) =>
    if now - t ≤ ttl then (v, s, false)
    else (fetch (), ⟨some (fetch (), now)⟩, true)
  | none => (fetch (), ⟨some (fetch (), now)⟩, true)

/-- ttl of the price cache, src/app.py line 34. -/
def pricesTtl : ℕ := 300

/-- ttl of the news cache, src/app.py line 51. -/
def newsTtl : ℕ := 600

/-! ## The spec description of the sentiment thresholds -/

/-- The threshold table as the spec words it: evaluated in order, first
match wins. -/
def specThresholds : List (ℚ × SentimentLabel) :=
  [(2, SentimentLabel.Greed), (0, SentimentLabel.Optimistic),
   (-2, SentimentLabel.Cautious)]

/-- The sentiment derivation as the spec words it: avg of the two
changes, first threshold strictly exceeded wins, otherwise Fear. -/
def specDerive (change_a change_b : ℚ) : SentimentLabel :=
  let avg := (change_a + change_b) / 2
  match specThresholds.find? (fun t => decide (t.1 < avg)) with
  | some t => t.2
  | none => SentimentLabel.Fear

/-! ## Theorems -/

/-- C1: for every pair of 24h changes, the sentiment of the source equals
the spec threshold table read in order with strict comparisons, and on
the boundaries avg = 2 gives Optimistic, avg = 0 gives Cautious and
avg = -2 gives Fear. -/
theorem sentiment_matches_spec_thresholds (a b : ℚ) :
    sentiment a b = specDerive a b ∧
    ((a + b) / 2 = 2 → sentiment a b = SentimentLabel.Optimistic) ∧
    ((a + b) / 2 = 0 → sentiment a b = SentimentLabel.Cautious) ∧
    ((a + b) / 2 = -2 → sentiment a b = SentimentLabel.Fear) := by
  refine ⟨?_, ?_, ?_, ?_⟩
  · simp only [sentiment, specDerive, specThresholds, List.find?]
    split_ifs with h1 h2 h3
    · simp [h1]
    · simp [h1, h2]
    · simp [h1, h2, h3]
    · simp [h1, h2, h3]
  · intro h
    simp only [sentiment, h]
    norm_num
  · intro h
    simp only [sentiment, h]
    norm_num
  · intro h
    simp only [sentiment, h]
    norm_num

/-- C1 witness: concrete boundary pairs. -/
theorem sentiment_matches_spec_thresholds_witness :
    sentiment 2 2 = SentimentLabel.Optimistic ∧
    sentiment 0 0 = SentimentLabel.Cautious ∧
    sentiment (-2) (-2) = SentimentLabel.Fear :=
  ⟨(sentiment_matches_spec_thresholds 2 2).2.1 (by norm_num),
   (sentiment_matches_spec_thresholds 0 0).2.2.1 (by norm_num),
   (sentiment_matches_spec_thresholds (-2) (-2)).2.2.2 (by norm_num)⟩

/-- C7: sentiment is monotone in the average: a pair with a smaller or
equal average never gets a strictly larger label in the order
Fear < Cautious < Optimistic < Greed. -/
theorem sentiment_monotone_in_avg (a₁ b₁ a₂ b₂ : ℚ)
    (h : (a₁ + b₁) / 2 ≤ (a₂ + b₂) / 2) :
    (sentiment a₁ b₁).rank ≤ (sentiment a₂ b₂).rank := by
  simp only [sentiment]
  split_ifs <;> simp [SentimentLabel.rank] <;> linarith

/-- C7 witness: a concrete increasing pair of averages. -/
theorem sentiment_monotone_in_avg_witness :
    (sentiment (-3) (-3)).rank ≤ (sentiment 3 3).rank :=
  sentiment_monotone_in_avg (-3) (-3) 3 3 (by norm_num)

/-- C9: spec-modelled ttl cache.  With an entry fetched at time t, a call
at time now within the freshness window returns the identical cached
value with no network call and an unchanged state; a call past the
window performs the fetch again and stores its value.  Stated for the
300 second price window and the 600 second news window. -/
theorem cache_freshness {α : Type} (v : α) (t now : ℕ) (fetch : Unit → α)
    (s : CacheState α) (hs : s.entry = some (v, t)) :
    (now - t ≤ 300 → cachedFetch pricesTtl now fetch s = (v, s, false)) ∧
    (now - t > 300 →
      cachedFetch pricesTtl now fetch s = (fetch (), ⟨some (fetch (), now)⟩, true)) ∧
    (now - t ≤ 600 → cachedFetch newsTtl now fetch s = (v, s, false)) ∧
    (now - t > 600 →
      cachedFetch newsTtl now fetch s = (fetch (), ⟨some (fetch (), now)⟩, true)) := by
  simp only [cachedFetch, hs, pricesTtl, newsTtl]
  refine ⟨fun h => ?_, fun h => ?_, fun h => ?_, fun h => ?_⟩
  · rw [if_pos h]
  · rw [if_neg (by omega)]
  · rw [if_pos h]
  · rw [if_neg (by omega)]

/-- C9 witness: a second call 100 seconds after the fetch is served from
the cache with no network call; a call 500 seconds after refetches. -/
theorem cache_freshness_witness :
    cachedFetch pricesTtl 200 (fun _ => 9) ⟨some (7, 100)⟩ = (7, ⟨some (7, 100)⟩, false) ∧
    cachedFetch pricesTtl 600 (fun _ => 9) ⟨some (7, 100)⟩ = (9, ⟨some (9, 600)⟩, true) :=
  ⟨(cache_freshness 7 100 200 (fun _ => 9) ⟨some (7, 100)⟩ rfl).1 (by norm_num),
   (cache_freshness 7 100 600 (fun _ => 9) ⟨some (7, 100)⟩ rfl).2.1 (by norm_num)⟩

/-- A well-formed price response holding both tracked assets. -/
def fullPriceDict (bp bc ep ec : ℚ) : PriceDict :=
  [("bitcoin", [("usd", bp), ("usd_24h_change", bc)]),
   ("ethereum", [("usd", ep), ("usd_24h_change", ec)])]

/-- A price response that decodes as JSON but lacks the ethereum asset. -/
def missingEthResp : PriceDict :=
  [("bitcoin", [("usd", 50000), ("usd_24h_change", 1)])]

/-- C2: once the prompt is built, every provider failure mode is caught at
the get_ai_analysis boundary: a raised provider exception or an empty
content list produces the fallback string, which is non-empty and carries
the text of the failure as its tail; a genuine response produces the
first content block text. -/
theorem get_ai_analysis_provider_failures
    (call : String → Except PyExn (List String))
    (price_data : PriceDict) (news_data : List NewsItem) (p : String)
    (hp : build_prompt price_data news_data = Except.ok p) :
    (∀ e : PyExn, call p = Except.error e →
      get_ai_analysis call price_data news_data =
        "Unable to generate AI analysis: " ++ e.toStr ∧
      0 < (get_ai_analysis call price_data news_data).length ∧
      ∃ pre, (get_ai_analysis call price_data news_data).data =
        pre ++ e.toStr.data) ∧
    (call p = Except.ok [] →
      get_ai_analysis call price_data news_data =
        "Unable to generate AI analysis: list index out of range") ∧
    (∀ t ts, call p = Except.ok (t :: ts) →
      get_ai_analysis call price_data news_data = t) := by
  refine ⟨fun e he => ?_, fun he => ?_, fun t ts he => ?_⟩
  · have hres : get_ai_analysis call price_data news_data =
        "Unable to generate AI analysis: " ++ e.toStr := by
      simp [get_ai_analysis, aiBody, hp, he]
    refine ⟨hres, ?_, ?_⟩
    · rw [hres, String.length_append]
      have h32 : ("Unable to generate AI analysis: " : String).length = 32 := rfl
      omega
    · exact ⟨("Unable to generate AI analysis: " : String).data,
        by rw [hres, String.data_append]⟩
  · simp [get_ai_analysis, aiBody, hp, he, PyExn.toStr]
  · simp [get_ai_analysis, aiBody, hp, he]

/-- C2 witness: a concrete provider failure on a complete input. -/
theorem get_ai_analysis_provider_failures_witness :
    get_ai_analysis (fun _ => Except.error (PyExn.apiError "connection refused"))
      (fullPriceDict 50000 1 3000 (-1)) [] =
      "Unable to generate AI analysis: connection refused" :=
  ((get_ai_analysis_provider_failures
      (fun _ => Except.error (PyExn.apiError "connection refused"))
      (fullPriceDict 50000 1 3000 (-1)) [] _ rfl).1
    (PyExn.apiError "connection refused") rfl).1

/-- C10: get_ai_analysis is total over its inputs: its try body either
succeeds, giving that text, or raises, giving the fallback; in particular
a price dict missing the bitcoin key, and a news item missing the title
key, give the KeyError fallback for every provider, because prompt
construction runs inside the catch-all handler. -/
theorem get_ai_analysis_total
    (call : String → Except PyExn (List String))
    (price_data : PriceDict) (news_data : List NewsItem) :
    ((∃ t, aiBody call price_data news_data = Except.ok t ∧
        get_ai_analysis call price_data news_data = t) ∨
     (∃ e, aiBody call price_data news_data = Except.error e ∧
        get_ai_analysis call price_data news_data =
          "Unable to generate AI analysis: " ++ e.toStr)) ∧
    get_ai_analysis call [] [] = "Unable to generate AI analysis: 'bitcoin'" ∧
    (∀ bp bc ep ec src pa,
      get_ai_analysis call (fullPriceDict bp bc ep ec)
        [{ title := none, source := src, published_at := pa }] =
        "Unable to generate AI analysis: 'title'") := by
  refine ⟨?_, rfl, fun bp bc ep ec src pa => rfl⟩
  cases h : aiBody call price_data news_data with
  | ok t => exact Or.inl ⟨t, rfl, by simp [get_ai_analysis, h]⟩
  | error e => exact Or.inr ⟨e, rfl, by simp [get_ai_analysis, h]⟩

/-- C3: the exception path of get_crypto_prices does return the absent
marker None, but a response that decodes as JSON while lacking a
requested asset is returned unchanged as a truthy mapping, not reported
as a failure; the ethereum lookup on it raises KeyError downstream. -/
theorem get_crypto_prices_missing_asset (e : PyExn) :
    get_crypto_prices (Except.error e) = none ∧
    get_crypto_prices (Except.ok missingEthResp) = some missingEthResp ∧
    pyTruthy (get_crypto_prices (Except.ok missingEthResp)) = true ∧
    dictGet missingEthResp "ethereum" = Except.error (PyExn.keyError "ethereum") :=
  ⟨rfl, rfl, rfl, rfl⟩

/-- C4: the run is not crash free: a truthy price response lacking the
ethereum entry makes the module-level rendering raise an uncaught
KeyError rather than report inline. -/
theorem runDashboard_crashes_on_missing_asset
    (call : String → Except PyExn (List String)) :
    runDashboard call (Except.ok missingEthResp) (Except.ok ⟨some []⟩) =
      Except.error (PyExn.keyError "ethereum") := rfl

/-- C6: a failed news fetch returns the empty list; a successful one
returns at most 5 items and a prefix of the decoded result list, hence in
provider order; and a run with a failed news fetch and a good price
response still completes in a rendered dashboard. -/
theorem get_crypto_news_degrades
    (e : PyExn) (d : NewsResp) (call : String → Except PyExn (List String))
    (bp bc ep ec : ℚ) :
    get_crypto_news (Except.error e) = [] ∧
    (get_crypto_news (Except.ok d)).length ≤ 5 ∧
    (∃ rest, get_crypto_news (Except.ok d) ++ rest = d.results.getD []) ∧
    (∃ out, runDashboard call (Except.ok (fullPriceDict bp bc ep ec))
        (Except.error e) = Except.ok out) := by
  refine ⟨rfl, ?_, ?_, ?_⟩
  · simp only [get_crypto_news, List.length_take]
    omega
  · exact ⟨(d.results.getD []).drop 5, List.take_append_drop 5 _⟩
  · exact ⟨_, rfl⟩

/-- C8: when the price fetch raises, or yields an empty JSON object, the
run ends in the single top-level error banner whatever the news outcome,
so the fetched news goes unused and no card, sentiment or summary content
is produced. -/
theorem price_failure_renders_single_error
    (call : String → Except PyExn (List String))
    (newsResp : Except PyExn NewsResp) (e : PyExn) :
    runDashboard call (Except.error e) newsResp =
      Except.ok (Rendered.errorBanner
        "Unable to fetch cryptocurrency data. Please check your API keys.") ∧
    runDashboard call (Except.ok []) newsResp =
      Except.ok (Rendered.errorBanner
        "Unable to fetch cryptocurrency data. Please check your API keys.") :=
  ⟨rfl, rfl⟩

/-- A successful headline extraction yields exactly one line per item. -/
theorem headlineLines_length (l : List NewsItem) (ls : List String)
    (h : headlineLines l = Except.ok ls) : ls.length = l.length := by
  induction l generalizing ls with
  | nil =>
    simp only [headlineLines] at h
    cases h
    rfl
  | cons n rest ih =>
    cases ht : n.title with
    | none =>
      simp only [headlineLines, ht] at h
      exact Except.noConfusion h
    | some t =>
      simp only [headlineLines, ht] at h
      cases hr : headlineLines rest with
      | error e =>
        rw [hr] at h
        simp only [Except.map] at h
        exact Except.noConfusion h
      | ok tail =>
        rw [hr] at h
        simp only [Except.map] at h
        cases h
        simp [ih tail hr]

/-- The digit characters of a base-10 digit are digits. -/
theorem digitChar_isDigit (k : ℕ) (hk : k < 10) :
    (Nat.digitChar k).isDigit = true := by
  interval_cases k <;> rfl

/-- The .2f format always renders a point followed by two digits at the
end. -/
theorem pyFmt_2f_decimals (q : ℚ) :
    ∃ pre d1 d2, (pyFmt_2f q).data = pre ++ ['.', d1, d2] ∧
      d1.isDigit = true ∧ d2.isDigit = true := by
  refine ⟨((if q < 0 then ("-" : String) else "") ++
      String.mk (natDigits ((roundHalfEven (q * 100)).natAbs / 100))).data,
    Nat.digitChar ((roundHalfEven (q * 100)).natAbs % 100 / 10),
    Nat.digitChar ((roundHalfEven (q * 100)).natAbs % 10),
    ?_, digitChar_isDigit _ (by omega), digitChar_isDigit _ (by omega)⟩
  simp [pyFmt_2f, String.data_append]

/-- The ,.2f format always renders a point followed by two digits at the
end. -/
theorem pyFmt_c2f_decimals (q : ℚ) :
    ∃ pre d1 d2, (pyFmt_c2f q).data = pre ++ ['.', d1, d2] ∧
      d1.isDigit = true ∧ d2.isDigit = true := by
  refine ⟨((if q < 0 then ("-" : String) else "") ++
      String.mk (commaGroup (natDigits ((roundHalfEven (q * 100)).natAbs / 100)))).data,
    Nat.digitChar ((roundHalfEven (q * 100)).natAbs % 100 / 10),
    Nat.digitChar ((roundHalfEven (q * 100)).natAbs % 10),
    ?_, digitChar_isDigit _ (by omega), digitChar_isDigit _ (by omega)⟩
  simp [pyFmt_c2f, String.data_append]

/-- C5: with both tracked assets present and titles on the first three
news items, the prompt builds as the fixed text around the four formatted
figures and the extracted headline lines; those lines number at most 3
whatever the news list length; each figure, rendered with two digits
after the point, sits inside the prompt; and the fixed instruction closes
it. -/
theorem build_prompt_bounded (bp bc ep ec : ℚ) (news : List NewsItem)
    (lines : List String)
    (hl : headlineLines (news.take 3) = Except.ok lines) :
    build_prompt (fullPriceDict bp bc ep ec) news =
      Except.ok (promptText (pyFmt_c2f bp) (pyFmt_2f bc) (pyFmt_c2f ep)
        (pyFmt_2f ec) lines) ∧
    lines.length ≤ 3 ∧
    (∀ s ∈ [pyFmt_c2f bp, pyFmt_2f bc, pyFmt_c2f ep, pyFmt_2f ec],
      ∃ pre suf, (promptText (pyFmt_c2f bp) (pyFmt_2f bc) (pyFmt_c2f ep)
        (pyFmt_2f ec) lines).data = pre ++ s.data ++ suf) ∧
    (∃ pre, (promptText (pyFmt_c2f bp) (pyFmt_2f bc) (pyFmt_c2f ep)
      (pyFmt_2f ec) lines).data = pre ++ fixedInstruction.data) ∧
    (∀ q : ℚ, ∃ pre d1 d2, (pyFmt_2f q).data = pre ++ ['.', d1, d2] ∧
      d1.isDigit = true ∧ d2.isDigit = true) ∧
    (∀ q : ℚ, ∃ pre d1 d2, (pyFmt_c2f q).data = pre ++ ['.', d1, d2] ∧
      d1.isDigit = true ∧ d2.isDigit = true) := by
  refine ⟨?_, ?_, ?_, ?_, pyFmt_2f_decimals, pyFmt_c2f_decimals⟩
  · have h1 : build_prompt (fullPriceDict bp bc ep ec) news =
        (match headlineLines (news.take 3) with
         | Except.error e => Except.error e
         | Except.ok lines => Except.ok (promptText (pyFmt_c2f bp)
             (pyFmt_2f bc) (pyFmt_c2f ep) (pyFmt_2f ec) lines)) := rfl
    rw [h1, hl]
  · have h2 := headlineLines_length _ _ hl
    have h3 : (news.take 3).length ≤ 3 := by
      simp [List.length_take]
    omega
  · intro s hs
    simp only [List.mem_cons, List.mem_singleton] at hs
    rcases hs with h | h | h | h | h
    · exact ⟨promptLit1.data,
        (promptLit2 ++ pyFmt_2f bc ++ promptLit3 ++ pyFmt_c2f ep ++ promptLit2
          ++ pyFmt_2f ec ++ promptLit5 ++ String.intercalate "\n" lines
          ++ fixedInstruction).data,
        by rw [h]; simp [promptText, String.data_append]⟩
    · exact ⟨(promptLit1 ++ pyFmt_c2f bp ++ promptLit2).data,
        (promptLit3 ++ pyFmt_c2f ep ++ promptLit2 ++ pyFmt_2f ec ++ promptLit5
          ++ String.intercalate "\n" lines ++ fixedInstruction).data,
        by rw [h]; simp [promptText, String.data_append]⟩
    · exact ⟨(promptLit1 ++ pyFmt_c2f bp ++ promptLit2 ++ pyFmt_2f bc
          ++ promptLit3).data,
        (promptLit2 ++ pyFmt_2f ec ++ promptLit5
          ++ String.intercalate "\n" lines ++ fixedInstruction).data,
        by rw [h]; simp [promptText, String.data_append]⟩
    · exact ⟨(promptLit1 ++ pyFmt_c2f bp ++ promptLit2 ++ pyFmt_2f bc
          ++ promptLit3 ++ pyFmt_c2f ep ++ promptLit2).data,
        (promptLit5 ++ String.intercalate "\n" lines ++ fixedInstruction).data,
        by rw [h]; simp [promptText, String.data_append]⟩
    · exact absurd h (List.not_mem_nil s)
  · exact ⟨(promptLit1 ++ pyFmt_c2f bp ++ promptLit2 ++ pyFmt_2f bc
        ++ promptLit3 ++ pyFmt_c2f ep ++ promptLit2 ++ pyFmt_2f ec
        ++ promptLit5 ++ String.intercalate "\n" lines).data,
      by simp [promptText, String.data_append]⟩

/-- Five news items with titles, more than the prompt may use. -/
def demoNews5 : List NewsItem :=
  [⟨some "BTC rallies", some ⟨some "CoinDesk"⟩, some "2025-01-01T00:00:00Z"⟩,
   ⟨some "ETH dips", some ⟨some "CoinDesk"⟩, some "2025-01-01T01:00:00Z"⟩,
   ⟨some "Fed holds rates", some ⟨some "Reuters"⟩, some "2025-01-01T02:00:00Z"⟩,
   ⟨some "Miner update", some ⟨some "The Block"⟩, some "2025-01-01T03:00:00Z"⟩,
   ⟨some "ETF inflows", some ⟨some "Reuters"⟩, some "2025-01-01T04:00:00Z"⟩]

/-- The headline lines the prompt takes from the five demo items. -/
def demoLines : List String := ["- BTC rallies", "- ETH dips", "- Fed holds rates"]

/-- C5 witness: with five news items supplied, the prompt keeps three
headline lines and ends in the fixed instruction. -/
theorem build_prompt_bounded_witness :
    demoLines.length ≤ 3 ∧
    (∃ pre, (promptText (pyFmt_c2f 50000) (pyFmt_2f 1) (pyFmt_c2f 3000)
      (pyFmt_2f (-1)) demoLines).data = pre ++ fixedInstruction.data) :=
  ⟨(build_prompt_bounded 50000 1 3000 (-1) demoNews5 demoLines rfl).2.1,
   (build_prompt_bounded 50000 1 3000 (-1) demoNews5 demoLines rfl).2.2.2.1⟩
